import Mathlib

/-!
# Verification of `CCS200.py` (PyCCS200)

A shallow embedding of the `Spectrometer` class of `src/CCS200.py`, a ctypes
wrapper around the Thorlabs `TLCCS_64.dll` vendor library, together with
theorems settling the frozen claims about it.

The foreign-call boundary (ctypes calls into the DLL, `os.chdir`, and
`cdll.LoadLibrary`) is modelled by an environment `Env` that decides the
outcome of every such call: either an integer return value together with the
values the callee wrote through `byref` pointers, or a Python exception.
Each method of the class is embedded as a function from the environment, the
process-global state (current working directory, ctypes buffer allocation
counter) and the object state to a `MResult`: the list of foreign calls the
method performed, its Python-level outcome (`Except` an exception), and the
updated process and object states.
-/

namespace CCS200

/-- A Python exception at the wrapper boundary: its type name and message
(`str(e)`). -/
structure PyExn where
  ty : String
  msg : String
deriving Repr, DecidableEq

/-- A ctypes-level argument value exactly as the wrapper passes it to a
foreign function. -/
inductive CArg where
  /-- a `c_int` passed by value (`self.ccs_handle`) -/
  | cInt : Int → CArg
  /-- `c_double(x)` -/
  | cDouble : Rat → CArg
  /-- a Python bytes literal such as the resource string -/
  | bytesLit : String → CArg
  /-- a plain Python int literal -/
  | intLit : Int → CArg
  /-- `byref` on a `c_int`, carrying its current value -/
  | byrefInt : Int → CArg
  /-- `byref` on a `(c_double * len)()` array, carrying the allocation id -/
  | byrefDoubleArray : Nat → Nat → CArg
  /-- `c_void_p(None)` -/
  | voidNull : CArg
deriving Repr, DecidableEq

/-- One foreign call as issued by the wrapper: the DLL function name and the
argument list. -/
structure ForeignCall where
  fn : String
  args : List CArg
deriving Repr, DecidableEq

/-- Successful outcome of a foreign call, chosen by the environment: the
integer return value, the values written through `byref` `c_int` pointers,
and the values written through `byref` double-array pointers (in argument
order). -/
structure CallOk where
  ret : Int
  intWrites : List Int
  arrWrites : List (List Rat)

/-- The environment deciding every outcome at the foreign-call boundary. -/
structure Env where
  /-- outcome of `os.chdir path` -/
  chdirResult : String → Except PyExn Unit
  /-- outcome of `cdll.LoadLibrary name` -/
  loadResult : String → Except PyExn Unit
  /-- outcome of a ctypes call into the loaded DLL -/
  call : ForeignCall → Except PyExn CallOk

/-- Process-global state touched by the wrapper: the current working
directory and the allocation counter for ctypes array buffers. -/
structure Proc where
  cwd : String
  nextBufId : Nat
deriving Repr, DecidableEq

/-- The object state: exactly the two attributes the class stores,
`self.lib` (loaded or not) and `self.ccs_handle` (a `c_int` value). -/
structure Spectrometer where
  lib : Option Unit
  ccs_handle : Int
deriving Repr, DecidableEq

/-- A numpy array as returned by `np.ctypeslib.as_array`: it shares the
underlying ctypes buffer, identified by its allocation id, with the given
contents. -/
structure NpArray where
  bufId : Nat
  data : List Rat
deriving Repr, DecidableEq

/-- A Python value returned by a method of the wrapper. -/
inductive PyVal where
  /-- `None` (methods with no `return` statement) -/
  | none : PyVal
  | int : Int → PyVal
  /-- the tuple `(wavelengths_np, data_array_np)` -/
  | arrayPair : NpArray → NpArray → PyVal
deriving Repr, DecidableEq

/-- Result of running one method: the foreign calls performed, the
Python-level outcome, and the updated process and object states. -/
structure MResult where
  trace : List ForeignCall
  result : Except PyExn PyVal
  proc : Proc
  st : Spectrometer

/-- `RuntimeError(msg)` as raised by the wrapper. -/
def runtimeError (msg : String) : PyExn := ⟨"RuntimeError", msg⟩

/-- The `AttributeError` raised when a method dereferences `self.lib` while
it is still `None`. -/
def attrErr (fn : String) : PyExn :=
  ⟨"AttributeError", "NoneType object has no attribute " ++ fn⟩

/-- The hard-coded VISA binary directory `os.chdir` targets. -/
def visaBinPath : String := "C:\\Program Files\\IVI Foundation\\VISA\\Win64\\Bin"

/-- The DLL file name passed to `cdll.LoadLibrary`. -/
def dllName : String := "TLCCS_64.dll"

/-- The hard-coded VISA resource string passed to `tlccs_init`. -/
def resourceString : String := "USB0::0x1313::0x8089::M00912624::RAW"

/-- The fixed ctypes buffer length `3648` used in `get_scan_data`. -/
def NUM_PIXELS : Nat := 3648

/-- The `tlccs_init` call record: `tlccs_init(b"USB0::...::RAW", 1, 1,
byref(self.ccs_handle))`. -/
def initCallRec (handle : Int) : ForeignCall :=
  ⟨"tlccs_init", [.bytesLit resourceString, .intLit 1, .intLit 1, .byrefInt handle]⟩

/-- The `tlccs_setIntegrationTime(self.ccs_handle, c_double(t))` call record. -/
def setIntCall (s : Spectrometer) (t : Rat) : ForeignCall :=
  ⟨"tlccs_setIntegrationTime", [.cInt s.ccs_handle, .cDouble t]⟩

/-- The `tlccs_startScan(self.ccs_handle)` call record. -/
def startScanCall (s : Spectrometer) : ForeignCall :=
  ⟨"tlccs_startScan", [.cInt s.ccs_handle]⟩

/-- The `tlccs_close(self.ccs_handle)` call record. -/
def closeCall (s : Spectrometer) : ForeignCall :=
  ⟨"tlccs_close", [.cInt s.ccs_handle]⟩

/-- The `tlccs_getWavelengthData(self.ccs_handle, 0, byref(wavelengths),
c_void_p(None), c_void_p(None))` call record. -/
def wlCall (s : Spectrometer) (bufId : Nat) : ForeignCall :=
  ⟨"tlccs_getWavelengthData",
    [.cInt s.ccs_handle, .intLit 0, .byrefDoubleArray bufId NUM_PIXELS, .voidNull, .voidNull]⟩

/-- The `tlccs_getScanData(self.ccs_handle, byref(data_array))` call record. -/
def scanDataCall (s : Spectrometer) (bufId : Nat) : ForeignCall :=
  ⟨"tlccs_getScanData", [.cInt s.ccs_handle, .byrefDoubleArray bufId NUM_PIXELS]⟩

/-- C semantics of the callee writing `w` through the buffer pointer: the
first `w.length` slots of the fixed-size buffer are overwritten, the rest
keep their previous contents; the buffer length never changes. -/
def overwrite (init w : List Rat) : List Rat :=
  w.take init.length ++ init.drop w.length

/-- `Spectrometer._load_library`: `os.chdir` to the VISA directory, then
`cdll.LoadLibrary("TLCCS_64.dll")`; any exception is caught and re-raised as
`RuntimeError("Failed to load spectrometer DLL: " + str(e))`. -/
def _load_library (env : Env) (p : Proc) (s : Spectrometer) : MResult :=
  match env.chdirResult visaBinPath with
  | .error e =>
      ⟨[], .error (runtimeError ("Failed to load spectrometer DLL: " ++ e.msg)), p, s⟩
  | .ok _ =>
      let p1 : Proc := { p with cwd := visaBinPath }
      match env.loadResult dllName with
      | .error e =>
          ⟨[], .error (runtimeError ("Failed to load spectrometer DLL: " ++ e.msg)), p1, s⟩
      | .ok _ => ⟨[], .ok .none, p1, { s with lib := some () }⟩

/-- `Spectrometer._initialize_device`: calls `tlccs_init` with the hard-coded
resource string and flags `1, 1`, passing `byref(self.ccs_handle)`; any
exception is re-raised as `RuntimeError("Failed to initialize spectrometer: "
+ str(e))`. -/
def _initialize_device (env : Env) (p : Proc) (s : Spectrometer) : MResult :=
  match s.lib with
  | Option.none =>
      ⟨[], .error (runtimeError ("Failed to initialize spectrometer: " ++ (attrErr "tlccs_init").msg)), p, s⟩
  | some _ =>
      let c := initCallRec s.ccs_handle
      match env.call c with
      | .error e =>
          ⟨[c], .error (runtimeError ("Failed to initialize spectrometer: " ++ e.msg)), p, s⟩
      | .ok r => ⟨[c], .ok .none, p, { s with ccs_handle := r.intWrites.headD s.ccs_handle }⟩

/-- `Spectrometer.__init__`: sets `self.lib = None`, `self.ccs_handle =
c_int(0)`, then runs `_load_library` and, if it did not raise,
`_initialize_device`. -/
def spectrometerInit (env : Env) (p : Proc) : MResult :=
  let s : Spectrometer := ⟨Option.none, 0⟩
  let r1 := _load_library env p s
  match r1.result with
  | .error e => ⟨r1.trace, .error e, r1.proc, r1.st⟩
  | .ok _ =>
      let r2 := _initialize_device env r1.proc r1.st
      ⟨r1.trace ++ r2.trace, r2.result, r2.proc, r2.st⟩

/-- `Spectrometer.set_integration_time`: converts the float argument to a
`c_double` and calls `tlccs_setIntegrationTime(self.ccs_handle, c_double(t))`;
returns `None`; any exception is re-raised as `RuntimeError("Failed to set
integration time: " + str(e))`. -/
def set_integration_time (env : Env) (p : Proc) (s : Spectrometer) (t : Rat) : MResult :=
  match s.lib with
  | Option.none =>
      ⟨[], .error (runtimeError ("Failed to set integration time: " ++ (attrErr "tlccs_setIntegrationTime").msg)), p, s⟩
  | some _ =>
      let c := setIntCall s t
      match env.call c with
      | .error e =>
          ⟨[c], .error (runtimeError ("Failed to set integration time: " ++ e.msg)), p, s⟩
      | .ok _ => ⟨[c], .ok .none, p, s⟩

/-- `Spectrometer.start_scan`: calls `tlccs_startScan(self.ccs_handle)`;
returns `None`; any exception is re-raised as `RuntimeError("Failed to start
scan: " + str(e))`. -/
def start_scan (env : Env) (p : Proc) (s : Spectrometer) : MResult :=
  match s.lib with
  | Option.none =>
      ⟨[], .error (runtimeError ("Failed to start scan: " ++ (attrErr "tlccs_startScan").msg)), p, s⟩
  | some _ =>
      let c := startScanCall s
      match env.call c with
      | .error e =>
          ⟨[c], .error (runtimeError ("Failed to start scan: " ++ e.msg)), p, s⟩
      | .ok _ => ⟨[c], .ok .none, p, s⟩

/-- `Spectrometer.get_scan_data`: allocates `wavelengths = (c_double*3648)()`,
calls `tlccs_getWavelengthData`, then allocates `data_array =
(c_double*3648)()`, calls `tlccs_getScanData`, converts both buffers with
`np.ctypeslib.as_array` (which shares the buffer storage) and returns the
tuple; any exception is re-raised as `RuntimeError("Failed to retrieve scan
data: " + str(e))`. -/
def get_scan_data (env : Env) (p : Proc) (s : Spectrometer) : MResult :=
  match s.lib with
  | Option.none =>
      ⟨[], .error (runtimeError ("Failed to retrieve scan data: " ++ (attrErr "tlccs_getWavelengthData").msg)), p, s⟩
  | some _ =>
      let wlId := p.nextBufId
      let p1 : Proc := { p with nextBufId := p.nextBufId + 1 }
      let wlInit : List Rat := List.replicate NUM_PIXELS 0
      let c1 := wlCall s wlId
      match env.call c1 with
      | .error e =>
          ⟨[c1], .error (runtimeError ("Failed to retrieve scan data: " ++ e.msg)), p1, s⟩
      | .ok r1 =>
          let wl := overwrite wlInit (r1.arrWrites.headD [])
          let daId := p1.nextBufId
          let p2 : Proc := { p1 with nextBufId := p1.nextBufId + 1 }
          let daInit : List Rat := List.replicate NUM_PIXELS 0
          let c2 := scanDataCall s daId
          match env.call c2 with
          | .error e =>
              ⟨[c1, c2], .error (runtimeError ("Failed to retrieve scan data: " ++ e.msg)), p2, s⟩
          | .ok r2 =>
              let da := overwrite daInit (r2.arrWrites.headD [])
              ⟨[c1, c2], .ok (.arrayPair ⟨wlId, wl⟩ ⟨daId, da⟩), p2, s⟩

/-- `Spectrometer.close`: calls `tlccs_close(self.ccs_handle)`; returns
`None`; any exception is re-raised as `RuntimeError("Failed to close
spectrometer: " + str(e))`. -/
def close (env : Env) (p : Proc) (s : Spectrometer) : MResult :=
  match s.lib with
  | Option.none =>
      ⟨[], .error (runtimeError ("Failed to close spectrometer: " ++ (attrErr "tlccs_close").msg)), p, s⟩
  | some _ =>
      let c := closeCall s
      match env.call c with
      | .error e =>
          ⟨[c], .error (runtimeError ("Failed to close spectrometer: " ++ e.msg)), p, s⟩
      | .ok _ => ⟨[c], .ok .none, p, s⟩

/-- Boolean test: did a unit-valued boundary step raise? -/
def isErrU : Except PyExn Unit → Bool
  | .error _ => true
  | .ok _ => false

/-- Boolean test: did a foreign call raise? -/
def isErrC : Except PyExn CallOk → Bool
  | .error _ => true
  | .ok _ => false

/-- Boolean test: did a wrapper method raise? -/
def isErrV : Except PyExn PyVal → Bool
  | .error _ => true
  | .ok _ => false

/-- Boolean test: if the method result is an exception, it is a
`RuntimeError`. -/
def onlyRuntimeError : Except PyExn PyVal → Bool
  | .error e => e.ty == "RuntimeError"
  | .ok _ => true

/-- The buffer-id pair carried by an `arrayPair` result, if any. -/
def resultBufIds : Except PyExn PyVal → Option (Nat × Nat)
  | .ok (.arrayPair a b) => some (a.bufId, b.bufId)
  | _ => Option.none

/-- A concrete environment in which every boundary step succeeds:
`tlccs_init` writes handle `7`, `tlccs_setIntegrationTime` returns `42`, and
the two data calls write short partial buffers. -/
def envOk : Env where
  chdirResult := fun _ => .ok ()
  loadResult := fun _ => .ok ()
  call := fun c =>
    if c.fn = "tlccs_init" then .ok ⟨0, [7], []⟩
    else if c.fn = "tlccs_setIntegrationTime" then .ok ⟨42, [], []⟩
    else if c.fn = "tlccs_getWavelengthData" then .ok ⟨0, [], [[5]]⟩
    else if c.fn = "tlccs_getScanData" then .ok ⟨0, [], [[9]]⟩
    else .ok ⟨0, [], []⟩

/-- A concrete environment whose `os.chdir` raises. -/
def envChdirFail : Env where
  chdirResult := fun _ => .error ⟨"FileNotFoundError", "no such directory"⟩
  loadResult := fun _ => .ok ()
  call := fun _ => .ok ⟨0, [], []⟩

/-- A concrete environment in which every DLL call raises `OSError`. -/
def envCallFail : Env where
  chdirResult := fun _ => .ok ()
  loadResult := fun _ => .ok ()
  call := fun _ => .error ⟨"OSError", "boom"⟩

/-- A full 3648-sample wavelength buffer written by the vendor. -/
def wlFull : List Rat := List.replicate NUM_PIXELS 2

/-- A full 3648-sample intensity buffer written by the vendor. -/
def scanFull : List Rat := List.replicate NUM_PIXELS 3

/-- A concrete environment whose data calls write full 3648-sample buffers. -/
def envFull : Env where
  chdirResult := fun _ => .ok ()
  loadResult := fun _ => .ok ()
  call := fun c =>
    if c.fn = "tlccs_getWavelengthData" then .ok ⟨0, [], [wlFull]⟩
    else if c.fn = "tlccs_getScanData" then .ok ⟨0, [], [scanFull]⟩
    else .ok ⟨0, [], []⟩

/-- A concrete initial process state. -/
def proc0 : Proc := ⟨"C:\\Users", 0⟩

/-- A concrete already-constructed object: library loaded, handle `7`. -/
def specReady : Spectrometer := ⟨some (), 7⟩

/-- The six `tlccs_*` entry points named in the source file. -/
def tlccsFunctions : List String :=
  ["tlccs_init", "tlccs_setIntegrationTime", "tlccs_startScan",
   "tlccs_getWavelengthData", "tlccs_getScanData", "tlccs_close"]

/-- The distinct vendor-DLL function names invoked across one construction
followed by one invocation of each public method. -/
def vendorCallNames (env : Env) (p : Proc) (s : Spectrometer) (t : Rat) : List String :=
  (((spectrometerInit env p).trace ++ (set_integration_time env p s t).trace ++
    (start_scan env p s).trace ++ (get_scan_data env p s).trace ++
    (close env p s).trace).map ForeignCall.fn).dedup

theorem overwrite_length (init w : List Rat) :
    (overwrite init w).length = init.length := by
  simp only [overwrite, List.length_append, List.length_take, List.length_drop]
  omega

theorem overwrite_full (init w : List Rat) (h : w.length = init.length) :
    overwrite init w = w := by
  simp [overwrite, ← h, List.take_length, List.drop_length]

theorem set_integration_time_st (env : Env) (p : Proc) (s : Spectrometer) (t : Rat) :
    (set_integration_time env p s t).st = s := by
  cases h : s.lib with
  | none => simp [set_integration_time, h]
  | some _ => cases hc : env.call (setIntCall s t) <;> simp [set_integration_time, h, hc]

theorem start_scan_st (env : Env) (p : Proc) (s : Spectrometer) :
    (start_scan env p s).st = s := by
  cases h : s.lib with
  | none => simp [start_scan, h]
  | some _ => cases hc : env.call (startScanCall s) <;> simp [start_scan, h, hc]

theorem get_scan_data_st (env : Env) (p : Proc) (s : Spectrometer) :
    (get_scan_data env p s).st = s := by
  cases h : s.lib with
  | none => simp [get_scan_data, h]
  | some _ =>
    cases h1 : env.call (wlCall s p.nextBufId) with
    | error e => simp [get_scan_data, h, h1]
    | ok r1 =>
      cases h2 : env.call (scanDataCall s (p.nextBufId + 1)) <;>
        simp [get_scan_data, h, h1, h2]

theorem close_st (env : Env) (p : Proc) (s : Spectrometer) :
    (close env p s).st = s := by
  cases h : s.lib with
  | none => simp [close, h]
  | some _ => cases hc : env.call (closeCall s) <;> simp [close, h, hc]

theorem set_integration_time_trace (env : Env) (p : Proc) (s : Spectrometer) (t : Rat) :
    (set_integration_time env p s t).trace = [] ∨
    (set_integration_time env p s t).trace = [setIntCall s t] := by
  cases h : s.lib with
  | none => left; simp [set_integration_time, h]
  | some _ =>
    right
    cases hc : env.call (setIntCall s t) <;> simp [set_integration_time, h, hc]

theorem start_scan_trace (env : Env) (p : Proc) (s : Spectrometer) :
    (start_scan env p s).trace = [] ∨
    (start_scan env p s).trace = [startScanCall s] := by
  cases h : s.lib with
  | none => left; simp [start_scan, h]
  | some _ =>
    right
    cases hc : env.call (startScanCall s) <;> simp [start_scan, h, hc]

theorem close_trace (env : Env) (p : Proc) (s : Spectrometer) :
    (close env p s).trace = [] ∨
    (close env p s).trace = [closeCall s] := by
  cases h : s.lib with
  | none => left; simp [close, h]
  | some _ =>
    right
    cases hc : env.call (closeCall s) <;> simp [close, h, hc]

theorem get_scan_data_trace (env : Env) (p : Proc) (s : Spectrometer) :
    (get_scan_data env p s).trace = [] ∨
    (get_scan_data env p s).trace = [wlCall s p.nextBufId] ∨
    (get_scan_data env p s).trace = [wlCall s p.nextBufId, scanDataCall s (p.nextBufId + 1)] := by
  cases h : s.lib with
  | none => left; simp [get_scan_data, h]
  | some _ =>
    cases h1 : env.call (wlCall s p.nextBufId) with
    | error e => right; left; simp [get_scan_data, h, h1]
    | ok r1 =>
      right; right
      cases h2 : env.call (scanDataCall s (p.nextBufId + 1)) <;>
        simp [get_scan_data, h, h1, h2]

theorem spectrometerInit_trace (env : Env) (p : Proc) :
    (spectrometerInit env p).trace = [] ∨
    (spectrometerInit env p).trace = [initCallRec 0] := by
  cases h1 : env.chdirResult visaBinPath with
  | error e => left; simp [spectrometerInit, _load_library, h1]
  | ok u =>
    cases h2 : env.loadResult dllName with
    | error e => left; simp [spectrometerInit, _load_library, h1, h2]
    | ok v =>
      right
      cases h3 : env.call (initCallRec 0) <;>
        simp [spectrometerInit, _load_library, _initialize_device, h1, h2, h3]

/-- C9: every post-construction operation (`set_integration_time`,
`start_scan`, `get_scan_data`, `close`), whether it succeeds or raises,
leaves the object fields `self.lib` and `self.ccs_handle` unchanged; in
particular `close` does not reset or invalidate the stored handle. -/
theorem claim_C9 (env : Env) (p : Proc) (s : Spectrometer) (t : Rat) :
    (set_integration_time env p s t).st = s ∧
    (start_scan env p s).st = s ∧
    (get_scan_data env p s).st = s ∧
    (close env p s).st = s :=
  ⟨set_integration_time_st env p s t, start_scan_st env p s,
   get_scan_data_st env p s, close_st env p s⟩

/-- C8: regardless of the environment, `__init__` either makes no DLL call
at all or makes exactly the call `tlccs_init(b"USB0::0x1313::0x8089::
M00912624::RAW", 1, 1, byref(ccs_handle))` with handle value `0`; the target
device is hard-coded, so two constructions pass identical arguments. -/
theorem claim_C8 (env : Env) (p : Proc) :
    (spectrometerInit env p).trace = [] ∨
    (spectrometerInit env p).trace =
      [⟨"tlccs_init",
        [.bytesLit "USB0::0x1313::0x8089::M00912624::RAW",
         .intLit 1, .intLit 1, .byrefInt 0]⟩] := by
  have h := spectrometerInit_trace env p
  simpa [initCallRec, resourceString] using h

/-- C10: constructing a `Spectrometer` changes the process-wide current
working directory: when `os.chdir` succeeds the cwd after `__init__` is the
fixed VISA binary path, whatever it was before and whatever the rest of the
construction does, and it is never restored; when `os.chdir` itself raises
the cwd is unchanged. -/
theorem claim_C10 (env : Env) (p : Proc) :
    (env.chdirResult visaBinPath = .ok () →
      (spectrometerInit env p).proc.cwd = visaBinPath) ∧
    (∀ e, env.chdirResult visaBinPath = .error e →
      (spectrometerInit env p).proc.cwd = p.cwd) := by
  constructor
  · intro h
    cases h2 : env.loadResult dllName with
    | error e => simp [spectrometerInit, _load_library, h, h2]
    | ok v =>
      cases h3 : env.call (initCallRec 0) <;>
        simp [spectrometerInit, _load_library, _initialize_device, h, h2, h3]
  · intro e h
    simp [spectrometerInit, _load_library, h]

theorem claim_C10_witness :
    (spectrometerInit envOk proc0).proc.cwd = visaBinPath ∧
    (spectrometerInit envChdirFail proc0).proc.cwd = proc0.cwd :=
  ⟨(claim_C10 envOk proc0).1 rfl,
   (claim_C10 envChdirFail proc0).2 ⟨"FileNotFoundError", "no such directory"⟩ rfl⟩

/-- C5: the only ordering is load-then-call: if loading the library fails
(`os.chdir` or `cdll.LoadLibrary` raised) `__init__` performs no DLL call;
if loading succeeds the single `tlccs_init` call happens after it; and no
method ever issues a foreign call while `self.lib` is still `None`. -/
theorem claim_C5 (env : Env) (p : Proc) (s : Spectrometer) (t : Rat) :
    ((isErrU (env.chdirResult visaBinPath) || isErrU (env.loadResult dllName)) = true →
      (spectrometerInit env p).trace = []) ∧
    ((isErrU (env.chdirResult visaBinPath) || isErrU (env.loadResult dllName)) = false →
      (spectrometerInit env p).trace = [initCallRec 0]) ∧
    (s.lib = Option.none →
      (set_integration_time env p s t).trace = [] ∧
      (start_scan env p s).trace = [] ∧
      (get_scan_data env p s).trace = [] ∧
      (close env p s).trace = []) := by
  refine ⟨?_, ?_, ?_⟩
  · intro h
    cases h1 : env.chdirResult visaBinPath with
    | error e => simp [spectrometerInit, _load_library, h1]
    | ok u =>
      cases h2 : env.loadResult dllName with
      | error e => simp [spectrometerInit, _load_library, h1, h2]
      | ok v => rw [h1, h2] at h; simp [isErrU] at h
  · intro h
    cases h1 : env.chdirResult visaBinPath with
    | error e => rw [h1] at h; simp [isErrU] at h
    | ok u =>
      cases h2 : env.loadResult dllName with
      | error e => rw [h1, h2] at h; simp [isErrU] at h
      | ok v =>
        cases h3 : env.call (initCallRec 0) <;>
          simp [spectrometerInit, _load_library, _initialize_device, h1, h2, h3]
  · intro h
    exact ⟨by simp [set_integration_time, h], by simp [start_scan, h],
      by simp [get_scan_data, h], by simp [close, h]⟩

theorem claim_C5_witness :
    (spectrometerInit envChdirFail proc0).trace = [] ∧
    (spectrometerInit envOk proc0).trace = [initCallRec 0] ∧
    (set_integration_time envOk proc0 ⟨Option.none, 0⟩ 5).trace = [] :=
  ⟨(claim_C5 envChdirFail proc0 specReady 5).1 rfl,
   (claim_C5 envOk proc0 specReady 5).2.1 rfl,
   ((claim_C5 envOk proc0 ⟨Option.none, 0⟩ 5).2.2 rfl).1⟩

/-- C7: no retry and no persisted state: in any single invocation of any
public operation each underlying foreign function is called at most once
(the trace of call names has no duplicate), and the operations keep no state
across calls beyond `lib` and `ccs_handle`, which they leave untouched. -/
theorem claim_C7 (env : Env) (p : Proc) (s : Spectrometer) (t : Rat) :
    ((spectrometerInit env p).trace.map ForeignCall.fn).Nodup ∧
    ((set_integration_time env p s t).trace.map ForeignCall.fn).Nodup ∧
    ((start_scan env p s).trace.map ForeignCall.fn).Nodup ∧
    ((get_scan_data env p s).trace.map ForeignCall.fn).Nodup ∧
    ((close env p s).trace.map ForeignCall.fn).Nodup ∧
    (set_integration_time env p s t).st = s ∧
    (start_scan env p s).st = s ∧
    (get_scan_data env p s).st = s ∧
    (close env p s).st = s := by
  refine ⟨?_, ?_, ?_, ?_, ?_,
    set_integration_time_st env p s t, start_scan_st env p s,
    get_scan_data_st env p s, close_st env p s⟩
  · rcases spectrometerInit_trace env p with h | h <;> simp [h]
  · rcases set_integration_time_trace env p s t with h | h <;> simp [h]
  · rcases start_scan_trace env p s with h | h <;> simp [h]
  · rcases get_scan_data_trace env p s with h | h | h <;>
      simp [h, wlCall, scanDataCall]
  · rcases close_trace env p s with h | h <;> simp [h]

theorem spectrometerInit_raises_iff (env : Env) (p : Proc) :
    isErrV (spectrometerInit env p).result =
      (isErrU (env.chdirResult visaBinPath) || isErrU (env.loadResult dllName) ||
        isErrC (env.call (initCallRec 0))) ∧
    onlyRuntimeError (spectrometerInit env p).result = true := by
  cases h1 : env.chdirResult visaBinPath with
  | error e =>
      simp [spectrometerInit, _load_library, h1, isErrU, isErrV, isErrC,
        onlyRuntimeError, runtimeError]
  | ok u =>
    cases h2 : env.loadResult dllName with
    | error e =>
        simp [spectrometerInit, _load_library, h1, h2, isErrU, isErrV, isErrC,
          onlyRuntimeError, runtimeError]
    | ok v =>
      cases h3 : env.call (initCallRec 0) <;>
        simp [spectrometerInit, _load_library, _initialize_device, h1, h2, h3,
          isErrU, isErrV, isErrC, onlyRuntimeError, runtimeError]

theorem set_integration_time_raises_iff (env : Env) (p : Proc) (s : Spectrometer)
    (t : Rat) (h : s.lib = some ()) :
    isErrV (set_integration_time env p s t).result = isErrC (env.call (setIntCall s t)) ∧
    onlyRuntimeError (set_integration_time env p s t).result = true := by
  cases hc : env.call (setIntCall s t) <;>
    simp [set_integration_time, h, hc, isErrV, isErrC, onlyRuntimeError, runtimeError]

theorem start_scan_raises_iff (env : Env) (p : Proc) (s : Spectrometer)
    (h : s.lib = some ()) :
    isErrV (start_scan env p s).result = isErrC (env.call (startScanCall s)) ∧
    onlyRuntimeError (start_scan env p s).result = true := by
  cases hc : env.call (startScanCall s) <;>
    simp [start_scan, h, hc, isErrV, isErrC, onlyRuntimeError, runtimeError]

theorem get_scan_data_raises_iff (env : Env) (p : Proc) (s : Spectrometer)
    (h : s.lib = some ()) :
    isErrV (get_scan_data env p s).result =
      (isErrC (env.call (wlCall s p.nextBufId)) ||
        isErrC (env.call (scanDataCall s (p.nextBufId + 1)))) ∧
    onlyRuntimeError (get_scan_data env p s).result = true := by
  cases h1 : env.call (wlCall s p.nextBufId) with
  | error e =>
      simp [get_scan_data, h, h1, isErrV, isErrC, onlyRuntimeError, runtimeError]
  | ok r1 =>
    cases h2 : env.call (scanDataCall s (p.nextBufId + 1)) <;>
      simp [get_scan_data, h, h1, h2, isErrV, isErrC, onlyRuntimeError, runtimeError]

theorem close_raises_iff (env : Env) (p : Proc) (s : Spectrometer)
    (h : s.lib = some ()) :
    isErrV (close env p s).result = isErrC (env.call (closeCall s)) ∧
    onlyRuntimeError (close env p s).result = true := by
  cases hc : env.call (closeCall s) <;>
    simp [close, h, hc, isErrV, isErrC, onlyRuntimeError, runtimeError]

/-- C2: every public operation (initialization, `set_integration_time`,
`start_scan`, `get_scan_data`, `close`) raises iff the underlying boundary
call raised (for initialization: `os.chdir`, `cdll.LoadLibrary` or
`tlccs_init`; for `get_scan_data`: either of its two data calls), and any
exception it raises is the single generic `RuntimeError` carrying a
message — there is no other failure mode. -/
theorem claim_C2 (env : Env) (p : Proc) (s : Spectrometer) (t : Rat)
    (h : s.lib = some ()) :
    (isErrV (spectrometerInit env p).result =
      (isErrU (env.chdirResult visaBinPath) || isErrU (env.loadResult dllName) ||
        isErrC (env.call (initCallRec 0)))) ∧
    onlyRuntimeError (spectrometerInit env p).result = true ∧
    (isErrV (set_integration_time env p s t).result =
      isErrC (env.call (setIntCall s t))) ∧
    onlyRuntimeError (set_integration_time env p s t).result = true ∧
    (isErrV (start_scan env p s).result = isErrC (env.call (startScanCall s))) ∧
    onlyRuntimeError (start_scan env p s).result = true ∧
    (isErrV (get_scan_data env p s).result =
      (isErrC (env.call (wlCall s p.nextBufId)) ||
        isErrC (env.call (scanDataCall s (p.nextBufId + 1))))) ∧
    onlyRuntimeError (get_scan_data env p s).result = true ∧
    (isErrV (close env p s).result = isErrC (env.call (closeCall s))) ∧
    onlyRuntimeError (close env p s).result = true := by
  obtain ⟨a1, a2⟩ := spectrometerInit_raises_iff env p
  obtain ⟨b1, b2⟩ := set_integration_time_raises_iff env p s t h
  obtain ⟨c1, c2⟩ := start_scan_raises_iff env p s h
  obtain ⟨d1, d2⟩ := get_scan_data_raises_iff env p s h
  obtain ⟨e1, e2⟩ := close_raises_iff env p s h
  exact ⟨a1, a2, b1, b2, c1, c2, d1, d2, e1, e2⟩

theorem claim_C2_witness :
    specReady.lib = some () ∧
    isErrV (set_integration_time envCallFail proc0 specReady 5).result =
      isErrC (envCallFail.call (setIntCall specReady 5)) ∧
    onlyRuntimeError (set_integration_time envCallFail proc0 specReady 5).result = true :=
  ⟨rfl, (claim_C2 envCallFail proc0 specReady 5 rfl).2.2.1,
   (claim_C2 envCallFail proc0 specReady 5 rfl).2.2.2.1⟩

/-- C1 counterexample: the claim says each wrapper method propagates the
foreign call's return value to the caller, but `set_integration_time`
discards it: in an environment where `tlccs_setIntegrationTime` returns
`42`, the method returns `None`, not `42`. -/
theorem claim_C1_counterexample :
    envOk.call (setIntCall specReady 5) = .ok ⟨42, [], []⟩ ∧
    (set_integration_time envOk proc0 specReady 5).result = .ok .none ∧
    (set_integration_time envOk proc0 specReady 5).result ≠ .ok (.int 42) := by
  refine ⟨rfl, rfl, fun hc => ?_⟩
  have hc2 : (Except.ok PyVal.none : Except PyExn PyVal) = Except.ok (PyVal.int 42) := hc
  simp at hc2

/-- C1 amended: every public operation calls the expected foreign function
with the expected argument types (`set_integration_time` converts its float
argument to a `c_double` and passes it with the handle to
`tlccs_setIntegrationTime`; `start_scan` passes the handle to
`tlccs_startScan`; `close` to `tlccs_close`; `get_scan_data` to
`tlccs_getWavelengthData` then `tlccs_getScanData`); the foreign integer
return value is discarded (the method returns `None` on success), and any
exception the call raises is re-raised as a `RuntimeError` carrying the
original message. -/
theorem claim_C1_amended (env : Env) (p : Proc) (s : Spectrometer) (t : Rat)
    (h : s.lib = some ()) :
    (set_integration_time env p s t).trace = [setIntCall s t] ∧
    (start_scan env p s).trace = [startScanCall s] ∧
    (close env p s).trace = [closeCall s] ∧
    ((get_scan_data env p s).trace = [wlCall s p.nextBufId] ∨
      (get_scan_data env p s).trace =
        [wlCall s p.nextBufId, scanDataCall s (p.nextBufId + 1)]) ∧
    (∀ r, env.call (setIntCall s t) = .ok r →
      (set_integration_time env p s t).result = .ok .none) ∧
    (∀ e, env.call (setIntCall s t) = .error e →
      (set_integration_time env p s t).result =
        .error (runtimeError ("Failed to set integration time: " ++ e.msg))) ∧
    (∀ r, env.call (startScanCall s) = .ok r →
      (start_scan env p s).result = .ok .none) ∧
    (∀ e, env.call (startScanCall s) = .error e →
      (start_scan env p s).result =
        .error (runtimeError ("Failed to start scan: " ++ e.msg))) := by
  refine ⟨?_, ?_, ?_, ?_, ?_, ?_, ?_, ?_⟩
  · cases hc : env.call (setIntCall s t) <;> simp [set_integration_time, h, hc]
  · cases hc : env.call (startScanCall s) <;> simp [start_scan, h, hc]
  · cases hc : env.call (closeCall s) <;> simp [close, h, hc]
  · cases h1 : env.call (wlCall s p.nextBufId) with
    | error e => left; simp [get_scan_data, h, h1]
    | ok r1 =>
      right
      cases h2 : env.call (scanDataCall s (p.nextBufId + 1)) <;>
        simp [get_scan_data, h, h1, h2]
  · intro r hc; simp [set_integration_time, h, hc]
  · intro e hc; simp [set_integration_time, h, hc]
  · intro r hc; simp [start_scan, h, hc]
  · intro e hc; simp [start_scan, h, hc]

theorem claim_C1_witness :
    specReady.lib = some () ∧
    (set_integration_time envCallFail proc0 specReady 5).trace =
      [setIntCall specReady 5] ∧
    (set_integration_time envCallFail proc0 specReady 5).result =
      .error (runtimeError ("Failed to set integration time: " ++ "boom")) :=
  ⟨rfl, (claim_C1_amended envCallFail proc0 specReady 5 rfl).1,
   (claim_C1_amended envCallFail proc0 specReady 5 rfl).2.2.2.2.2.1
     ⟨"OSError", "boom"⟩ rfl⟩

/-- C3: on success `get_scan_data` returns the tuple of exactly two
fixed-size numeric buffers, wavelengths first and intensities second, each
holding 3648 doubles, element-for-element identical to what
`tlccs_getWavelengthData` and `tlccs_getScanData` wrote, with no
transformation, scaling or reordering applied. -/
theorem claim_C3 (env : Env) (p : Proc) (s : Spectrometer)
    (h : s.lib = some ()) (w1 w2 : List Rat) (r1 r2 : Int) (i1 i2 : List Int)
    (h1 : env.call (wlCall s p.nextBufId) = .ok ⟨r1, i1, [w1]⟩)
    (hw1 : w1.length = NUM_PIXELS)
    (h2 : env.call (scanDataCall s (p.nextBufId + 1)) = .ok ⟨r2, i2, [w2]⟩)
    (hw2 : w2.length = NUM_PIXELS) :
    (get_scan_data env p s).result =
      .ok (.arrayPair ⟨p.nextBufId, w1⟩ ⟨p.nextBufId + 1, w2⟩) ∧
    w1.length = 3648 ∧ w2.length = 3648 := by
  have e1 : overwrite (List.replicate NUM_PIXELS 0) w1 = w1 :=
    overwrite_full _ _ (by simp [hw1])
  have e2 : overwrite (List.replicate NUM_PIXELS 0) w2 = w2 :=
    overwrite_full _ _ (by simp [hw2])
  exact ⟨by simp [get_scan_data, h, h1, h2, e1, e2], hw1, hw2⟩

theorem claim_C3_witness :
    (get_scan_data envFull proc0 specReady).result =
      .ok (.arrayPair ⟨proc0.nextBufId, wlFull⟩ ⟨proc0.nextBufId + 1, scanFull⟩) :=
  (claim_C3 envFull proc0 specReady rfl wlFull scanFull 0 0 [] []
    rfl (by simp [wlFull]) rfl (by simp [scanFull])).1

/-- C4 counterexample: the claim bounds the distinct vendor-DLL functions
invoked by five, but one construction plus one call to each public method
invokes six distinct `tlccs_*` functions (`get_scan_data` alone uses two:
`tlccs_getWavelengthData` and `tlccs_getScanData`). -/
theorem claim_C4_counterexample :
    vendorCallNames envOk proc0 specReady 5 = tlccsFunctions ∧
    ¬ (vendorCallNames envOk proc0 specReady 5).length ≤ 5 := by
  constructor <;> decide

/-- C4 amended: the binding exposes five operations (initialize, set
integration time, start scan, read scan data, close); the read step makes
two vendor calls, so the distinct vendor-DLL functions invoked across all
operations are exactly the six `tlccs_*` entry points, never more. -/
theorem claim_C4_amended (env : Env) (p : Proc) (s : Spectrometer) (t : Rat) :
    ((((spectrometerInit env p).trace ++ (set_integration_time env p s t).trace ++
       (start_scan env p s).trace ++ (get_scan_data env p s).trace ++
       (close env p s).trace).map ForeignCall.fn).all
        (fun n => tlccsFunctions.contains n)) = true ∧
    tlccsFunctions.length = 6 ∧ tlccsFunctions.Nodup := by
  refine ⟨?_, rfl, by decide⟩
  rcases spectrometerInit_trace env p with h0 | h0 <;>
  rcases set_integration_time_trace env p s t with h1 | h1 <;>
  rcases start_scan_trace env p s with h2 | h2 <;>
  rcases get_scan_data_trace env p s with h3 | h3 | h3 <;>
  rcases close_trace env p s with h4 | h4 <;>
    simp [h0, h1, h2, h3, h4, initCallRec, setIntCall, startScanCall,
      wlCall, scanDataCall, closeCall, tlccsFunctions]

/-- C6 counterexample: the claim says successive calls to `get_scan_data`
reuse and overwrite the same storage, but the wrapper allocates two fresh
`(c_double * 3648)()` buffers on every call: a first call returns the
buffers with allocation ids `(0, 1)` and an immediately following call
returns distinct fresh buffers `(2, 3)`. -/
theorem claim_C6_counterexample :
    resultBufIds (get_scan_data envOk proc0 specReady).result = some (0, 1) ∧
    resultBufIds (get_scan_data envOk
      (get_scan_data envOk proc0 specReady).proc specReady).result = some (2, 3) ∧
    (0, 1) ≠ (2, 3) := by
  refine ⟨rfl, rfl, by decide⟩

/-- C6 amended: the two scan-data buffers are flat buffers of fixed length
3648 that are freshly allocated on each call to `get_scan_data`; successive
calls return distinct, newly allocated storage (the allocation counter
advances by two per successful call), with ownership handed to the caller. -/
theorem claim_C6_amended (env : Env) (p : Proc) (s : Spectrometer)
    (h : s.lib = some ()) (r1 r2 : CallOk)
    (h1 : env.call (wlCall s p.nextBufId) = .ok r1)
    (h2 : env.call (scanDataCall s (p.nextBufId + 1)) = .ok r2) :
    ∃ a b, (get_scan_data env p s).result = .ok (.arrayPair a b) ∧
      a.data.length = NUM_PIXELS ∧ b.data.length = NUM_PIXELS ∧
      a.bufId = p.nextBufId ∧ b.bufId = p.nextBufId + 1 ∧ a.bufId ≠ b.bufId ∧
      (get_scan_data env p s).proc.nextBufId = p.nextBufId + 2 := by
  refine ⟨⟨p.nextBufId, overwrite (List.replicate NUM_PIXELS 0) (r1.arrWrites.headD [])⟩,
    ⟨p.nextBufId + 1, overwrite (List.replicate NUM_PIXELS 0) (r2.arrWrites.headD [])⟩,
    ?_, ?_, ?_, rfl, rfl, by show p.nextBufId ≠ p.nextBufId + 1; omega, ?_⟩
  · simp [get_scan_data, h, h1, h2]
  · simp [overwrite_length]
  · simp [overwrite_length]
  · simp [get_scan_data, h, h1, h2]

theorem claim_C6_witness :
    ∃ a b, (get_scan_data envOk proc0 specReady).result = .ok (.arrayPair a b) ∧
      a.data.length = NUM_PIXELS ∧ b.data.length = NUM_PIXELS ∧
      a.bufId = proc0.nextBufId ∧ b.bufId = proc0.nextBufId + 1 ∧
      a.bufId ≠ b.bufId ∧
      (get_scan_data envOk proc0 specReady).proc.nextBufId = proc0.nextBufId + 2 :=
  claim_C6_amended envOk proc0 specReady rfl ⟨0, [], [[5]]⟩ ⟨0, [], [[9]]⟩ rfl rfl

end CCS200
